import Mathlib

/-!
Shallow embedding of the DLFS operation library (`src/library/base.py`).

Arrays are modelled as 2-dimensional rational matrices carrying their numpy
shape explicitly (`rows`, `cols`) together with a row-major data list; every
array-producing primitive below regenerates its data from an index function,
so produced arrays are rectangular by construction.  Python exceptions are
modelled by the `Err` type and fallible calls return `Except Err _`; methods
that mutate the object before possibly raising return the post-call object
state next to the result, mirroring Python's exception semantics where
attribute assignments performed before the raise survive it.

Python object attributes that the source assigns lazily (`input`, `input_`,
`output`, `input_grad`, `param`, `param_grad`) are `Option` fields of
`OpState`; reading an unassigned attribute raises `AttributeError`, as in
Python.  Dynamic dispatch of the `_output` / `_input_grad` / `_param_grad`
hooks is modelled by passing the concrete hook functions to the shared
`forward` / `backward` method bodies.
-/

/-- Python exceptions raised by the embedded code. `shapeMismatch` is the
`AssertionError` raised by `assert_same_shape`; `assertionFailed` is the bare
`assert B.shape[0] == 1` in `BiasAdd.__init__`; `valueError` stands for the
numpy shape errors of `np.dot` and broadcasting. -/
inductive Err where
  | attributeError (name : String)
  | shapeMismatch
  | assertionFailed
  | valueError
  | notImplementedError
deriving DecidableEq, Repr

/-- A numpy 2-D `ndarray`: the shape `(rows, cols)` and the entries in
row-major order. -/
structure Arr where
  rows : Nat
  cols : Nat
  data : List (List ℚ)
deriving DecidableEq, Repr

/-- Decidable equality of fallible results, so that concrete runs of the
embedded code can be checked by evaluation. -/
instance {ε α : Type} [DecidableEq ε] [DecidableEq α] :
    DecidableEq (Except ε α) := fun a b =>
  match a, b with
  | Except.error x, Except.error y => decidable_of_iff (x = y) (by simp)
  | Except.error _, Except.ok _ => Decidable.isFalse (fun h => Except.noConfusion h)
  | Except.ok _, Except.error _ => Decidable.isFalse (fun h => Except.noConfusion h)
  | Except.ok x, Except.ok y => decidable_of_iff (x = y) (by simp)

/-- Entry access (total, out-of-range reads default to `0`; every use below
is within range for rectangular arrays). -/
def Arr.get (A : Arr) (i j : Nat) : ℚ :=
  (A.data.getD i []).getD j 0

/-- Build the rectangular `r × c` array whose `(i, j)` entry is `f i j`. -/
def arrOfFn (r c : Nat) (f : Nat → Nat → ℚ) : Arr :=
  ⟨r, c, (List.range r).map fun i => (List.range c).map fun j => f i j⟩

/-- The `r × c` array filled with `1.0`. -/
def onesArr (r c : Nat) : Arr :=
  arrOfFn r c fun _ _ => 1

/-- Shape equality test, as compared by `assert_same_shape` in the source
(`array.shape == array_grad.shape`). -/
def Arr.shapeEq (A B : Arr) : Bool :=
  A.rows == B.rows && A.cols == B.cols

/-- `np.transpose(A, (1, 0))`. -/
def transposeArr (A : Arr) : Arr :=
  arrOfFn A.cols A.rows fun i j => A.get j i

/-- `np.dot(A, B)` on 2-D arrays: raises `ValueError` unless the inner
dimensions agree. -/
def matmul (A B : Arr) : Except Err Arr :=
  if A.cols = B.rows then
    Except.ok (arrOfFn A.rows B.cols fun i j =>
      ((List.range A.cols).map fun k => A.get i k * B.get k j).sum)
  else Except.error Err.valueError

/-- `np.ones_like(A)`. -/
def onesLike (A : Arr) : Arr :=
  arrOfFn A.rows A.cols fun _ _ => 1

/-- numpy broadcasting of one dimension: sizes must agree or one must be 1. -/
def bDim (a b : Nat) : Option Nat :=
  if a = b then some a else if a = 1 then some b else if b = 1 then some a else none

/-- Index into a possibly-broadcast dimension: a size-1 dimension is read at 0. -/
def bIdx (n i : Nat) : Nat :=
  if n = 1 then 0 else i

/-- A broadcasting elementwise binary operation on 2-D arrays (numpy `+`, `*`):
raises `ValueError` when the shapes are not broadcast-compatible. -/
def broadcast2 (f : ℚ → ℚ → ℚ) (A B : Arr) : Except Err Arr :=
  match bDim A.rows B.rows, bDim A.cols B.cols with
  | some r, some c =>
      Except.ok (arrOfFn r c fun i j =>
        f (A.get (bIdx A.rows i) (bIdx A.cols j))
          (B.get (bIdx B.rows i) (bIdx B.cols j)))
  | _, _ => Except.error Err.valueError

/-- Elementwise unary map (numpy scalar arithmetic broadcast over an array). -/
def mapArr (f : ℚ → ℚ) (A : Arr) : Arr :=
  arrOfFn A.rows A.cols fun i j => f (A.get i j)

/-- `np.sum(A, axis=0).reshape(1, A.shape[1])`: column sums as a `1 × cols`
array, exactly the composite used by `BiasAdd._param_grad`. -/
def sumAxis0Reshape1 (A : Arr) : Arr :=
  arrOfFn 1 A.cols fun _ j => ((List.range A.rows).map fun i => A.get i j).sum

/-- The attribute dictionary of an operation object.  `forward` assigns
`input`; the concrete `_output` hooks read `input_`, a distinct attribute that
no method of the source ever assigns. -/
structure OpState where
  input : Option Arr := none
  input_ : Option Arr := none
  output : Option Arr := none
  inputGrad : Option Arr := none
  param : Option Arr := none
  paramGrad : Option Arr := none
deriving DecidableEq, Repr

/-- Reading attribute `n`: `AttributeError` when it was never assigned. -/
def attr (a : Option Arr) (n : String) : Except Err Arr :=
  match a with
  | some v => Except.ok v
  | none => Except.error (Err.attributeError n)

/-- A fresh `Operation` object: `Operation.__init__` is `pass`, so no
attribute is assigned (this is the state of a new `Sigmoid()` or `Linear()`). -/
def freshOp : OpState := {}

/-- `Operation.forward`: `self.input = input_; self.output = self._output();
return self.output`, with `f` the dispatched `_output` hook.  If the hook
raises, `self.input` has already been assigned but `self.output` has not. -/
def opForward (f : OpState → Except Err Arr) (s : OpState) (x : Arr) :
    OpState × Except Err Arr :=
  let s1 := { s with input := some x }
  match f s1 with
  | Except.error e => (s1, Except.error e)
  | Except.ok y => ({ s1 with output := some y }, Except.ok y)

/-- `Operation.backward`: `assert_same_shape(self.output, output_grad)`, then
`self.input_grad = self._input_grad(output_grad)`, then
`assert_same_shape(self.input, self.input_grad)`, then return
`self.input_grad`; `f` is the dispatched `_input_grad` hook. -/
def opBackward (f : OpState → Arr → Except Err Arr) (s : OpState) (g : Arr) :
    OpState × Except Err Arr :=
  match s.output with
  | none => (s, Except.error (Err.attributeError "output"))
  | some y =>
    if y.shapeEq g then
      match f s g with
      | Except.error e => (s, Except.error e)
      | Except.ok ig =>
        let s1 := { s with inputGrad := some ig }
        match s1.input with
        | none => (s1, Except.error (Err.attributeError "input"))
        | some x =>
          if x.shapeEq ig then (s1, Except.ok ig)
          else (s1, Except.error Err.shapeMismatch)
    else (s, Except.error Err.shapeMismatch)

/-- `ParamOperation.backward`: `assert_same_shape(self.output, output_grad)`,
then `self.input_grad = self._input_grad(output_grad)`, then
`self.param_grad = self._param_grad(output_grad)`, then return
`self.input_grad` — with no second `assert_same_shape` on `input_grad`. -/
def paramBackward (f fp : OpState → Arr → Except Err Arr) (s : OpState)
    (g : Arr) : OpState × Except Err Arr :=
  match s.output with
  | none => (s, Except.error (Err.attributeError "output"))
  | some y =>
    if y.shapeEq g then
      match f s g with
      | Except.error e => (s, Except.error e)
      | Except.ok ig =>
        let s1 := { s with inputGrad := some ig }
        match fp s1 g with
        | Except.error e => (s1, Except.error e)
        | Except.ok pg => ({ s1 with paramGrad := some pg }, Except.ok ig)
    else (s, Except.error Err.shapeMismatch)

/-- `ParamOperation.__init__(param)`: it executes `super().__init_()`, a
misspelling of `__init__`.  Python name-mangles the identifier `__init_`
(two leading underscores, one trailing) inside `class ParamOperation` to
`_ParamOperation__init_`, which no class in the hierarchy defines, so the
constructor raises `AttributeError` before `self.param = param` runs: no
object state is ever produced. -/
def paramOperationInit (_ : Arr) : Except Err OpState :=
  Except.error (Err.attributeError "_ParamOperation__init_")

/-- `WeightMultiply.__init__(W)`: delegates to `ParamOperation.__init__`. -/
def wmInit (W : Arr) : Except Err OpState :=
  paramOperationInit W

/-- `WeightMultiply._output`: `np.dot(self.input_, self.param)` — note the
read of `self.input_`. -/
def wmOut (s : OpState) : Except Err Arr := do
  let i ← attr s.input_ "input_"
  let p ← attr s.param "param"
  matmul i p

/-- `WeightMultiply._input_grad`:
`np.dot(output_grad, np.transpose(self.param, (1, 0)))`. -/
def wmInputGrad (s : OpState) (g : Arr) : Except Err Arr := do
  let p ← attr s.param "param"
  matmul g (transposeArr p)

/-- `WeightMultiply._param_grad`:
`np.dot(np.transpose(self.input_, (1, 0)), output_grad)`. -/
def wmParamGrad (s : OpState) (g : Arr) : Except Err Arr := do
  let i ← attr s.input_ "input_"
  matmul (transposeArr i) g

/-- `BiasAdd.__init__(B)`: `assert B.shape[0] == 1`, then
`super().__init__(B)` which is `ParamOperation.__init__`. -/
def baInit (B : Arr) : Except Err OpState :=
  if B.rows = 1 then paramOperationInit B else Except.error Err.assertionFailed

/-- `BiasAdd._output`: `self.input_ + self.param`. -/
def baOut (s : OpState) : Except Err Arr := do
  let i ← attr s.input_ "input_"
  let p ← attr s.param "param"
  broadcast2 (· + ·) i p

/-- `BiasAdd._input_grad`: `np.ones_like(self.input_) * output_grad`. -/
def baInputGrad (s : OpState) (g : Arr) : Except Err Arr := do
  let i ← attr s.input_ "input_"
  broadcast2 (· * ·) (onesLike i) g

/-- `BiasAdd._param_grad`: `param_grad = np.ones_like(self.param) *
output_grad; return np.sum(param_grad, axis=0).reshape(1,
param_grad.shape[1])`. -/
def baParamGrad (s : OpState) (g : Arr) : Except Err Arr := do
  let p ← attr s.param "param"
  let pg ← broadcast2 (· * ·) (onesLike p) g
  return sumAxis0Reshape1 pg

/-- `Sigmoid._output`: `1.0 / (1.0 + np.exp(-1.0 * self.input_))`.  The
transcendental `np.exp` is not a function of the repository; the hook is
parameterized by an arbitrary interpretation `e` of it, and every theorem
below holds for all `e` because the hook aborts on the `self.input_` read
before `e` is ever applied. -/
def sigOut (e : ℚ → ℚ) (s : OpState) : Except Err Arr := do
  let i ← attr s.input_ "input_"
  return mapArr (fun x => 1 / (1 + e (-1 * x))) i

/-- `Sigmoid._input_grad`: `sigmoid_backward = self.output * (1.0 -
self.output); input_grad = sigmoid_backward * output_grad`. -/
def sigInputGrad (s : OpState) (g : Arr) : Except Err Arr := do
  let y ← attr s.output "output"
  let sb ← broadcast2 (· * ·) y (mapArr (fun t => 1 - t) y)
  broadcast2 (· * ·) sb g

/-- `Linear._output`: `return self.input_`. -/
def linOut (s : OpState) : Except Err Arr :=
  attr s.input_ "input_"

/-- `Linear._input_grad`: `return output_grad`. -/
def linInputGrad (_ : OpState) (g : Arr) : Except Err Arr :=
  Except.ok g

/-! ### Helper lemmas -/

theorem attr_none (n : String) :
    attr none n = Except.error (Err.attributeError n) := rfl

theorem attr_some (v : Arr) (n : String) : attr (some v) n = Except.ok v := rfl

theorem wmOut_err (s : OpState) (h : s.input_ = none) :
    wmOut s = Except.error (Err.attributeError "input_") := by
  unfold wmOut
  rw [h]
  rfl

theorem baOut_err (s : OpState) (h : s.input_ = none) :
    baOut s = Except.error (Err.attributeError "input_") := by
  unfold baOut
  rw [h]
  rfl

theorem sigOut_err (e : ℚ → ℚ) (s : OpState) (h : s.input_ = none) :
    sigOut e s = Except.error (Err.attributeError "input_") := by
  unfold sigOut
  rw [h]
  rfl

theorem linOut_err (s : OpState) (h : s.input_ = none) :
    linOut s = Except.error (Err.attributeError "input_") := by
  unfold linOut
  rw [h]
  rfl

theorem opForward_hook_err (f : OpState → Except Err Arr) (s : OpState)
    (x : Arr) (e : Err) (hf : f { s with input := some x } = Except.error e) :
    opForward f s x = ({ s with input := some x }, Except.error e) := by
  simp [opForward, hf]

example :
    (opForward linOut freshOp (onesArr 1 1)).2
      = Except.error (Err.attributeError "input_") := by decide

/-! ### Claim theorems -/

/-- C1: the spec claims that for every operation, `backward(g)` right after
`forward(x)` with `g.shape == forward(x).shape` succeeds and returns an array
of `x.shape`.  On the code the claimed call sequence already fails at the
forward step: every concrete `_output` hook reads the never-assigned
attribute `input_`, so `forward` raises `AttributeError` and returns no
array.  Evaluated for a fresh `Linear()` at `x = [[1.0]]`: forward stores `x`
under `input`, raises `AttributeError` on `input_`, and leaves `output`
unset. -/
theorem c1_forward_step_raises :
    ((opForward linOut freshOp (onesArr 1 1)).2
        = Except.error (Err.attributeError "input_"))
  ∧ ((opForward linOut freshOp (onesArr 1 1)).1.input = some (onesArr 1 1))
  ∧ ((opForward linOut freshOp (onesArr 1 1)).1.output = none) := by
  decide

/-- C2: the spec claims that `backward(g)` after `forward(x)` with a
mismatched `g.shape` fails with ShapeMismatch.  On the code, `forward(x)`
itself raises `AttributeError` (never caching `output`), and the subsequent
`backward(g)` then raises `AttributeError` on the unset `output` attribute
inside `assert_same_shape(self.output, output_grad)` — not ShapeMismatch.
Evaluated for a fresh `Linear()` with `x = [[1.0]]` and `g = [[1.0],[1.0]]`. -/
theorem c2_backward_raises_attribute_error_not_shape :
    ((opBackward linInputGrad (opForward linOut freshOp (onesArr 1 1)).1
        (onesArr 2 1)).2 = Except.error (Err.attributeError "output"))
  ∧ ((opBackward linInputGrad (opForward linOut freshOp (onesArr 1 1)).1
        (onesArr 2 1)).2 ≠ Except.error Err.shapeMismatch) := by
  decide

/-- C3: for every concrete operation (`WeightMultiply`, `BiasAdd`, `Sigmoid`
with any interpretation `e` of `np.exp`, `Linear`) and every input array,
`forward` raises `AttributeError` on `input_`: it stores the input under the
attribute `input`, while each `_output` hook reads the attribute `input_`,
which remains unassigned. -/
theorem c3_concrete_forward_attribute_error (s : OpState) (x : Arr)
    (e : ℚ → ℚ) (h : s.input_ = none) :
    ((opForward wmOut s x).2 = Except.error (Err.attributeError "input_"))
  ∧ ((opForward baOut s x).2 = Except.error (Err.attributeError "input_"))
  ∧ ((opForward (sigOut e) s x).2 = Except.error (Err.attributeError "input_"))
  ∧ ((opForward linOut s x).2 = Except.error (Err.attributeError "input_"))
  ∧ ((opForward linOut s x).1.input = some x)
  ∧ ((opForward linOut s x).1.input_ = none) := by
  have h1 : ({ s with input := some x } : OpState).input_ = none := h
  refine ⟨?_, ?_, ?_, ?_, ?_, ?_⟩
  · rw [opForward_hook_err wmOut s x _ (wmOut_err _ h1)]
  · rw [opForward_hook_err baOut s x _ (baOut_err _ h1)]
  · rw [opForward_hook_err (sigOut e) s x _ (sigOut_err e _ h1)]
  · rw [opForward_hook_err linOut s x _ (linOut_err _ h1)]
  · rw [opForward_hook_err linOut s x _ (linOut_err _ h1)]
  · rw [opForward_hook_err linOut s x _ (linOut_err _ h1)]
    exact h

theorem c3_concrete_forward_attribute_error_w :
    (freshOp.input_ = none)
  ∧ (((opForward wmOut freshOp (onesArr 1 1)).2
        = Except.error (Err.attributeError "input_"))
  ∧ ((opForward baOut freshOp (onesArr 1 1)).2
        = Except.error (Err.attributeError "input_"))
  ∧ ((opForward (sigOut id) freshOp (onesArr 1 1)).2
        = Except.error (Err.attributeError "input_"))
  ∧ ((opForward linOut freshOp (onesArr 1 1)).2
        = Except.error (Err.attributeError "input_"))
  ∧ ((opForward linOut freshOp (onesArr 1 1)).1.input = some (onesArr 1 1))
  ∧ ((opForward linOut freshOp (onesArr 1 1)).1.input_ = none)) :=
  ⟨rfl, c3_concrete_forward_attribute_error freshOp (onesArr 1 1) id rfl⟩

/-- C4: constructing any `ParamOperation` — `WeightMultiply(W)` for any `W`,
or `BiasAdd(B)` for any `B` with leading dimension 1 — raises
`AttributeError`, because `ParamOperation.__init__` invokes
`super().__init_()` (name-mangled to the nonexistent attribute
`_ParamOperation__init_`) before `self.param = param` runs. -/
theorem c4_paramop_init_attribute_error (W B : Arr) (hB : B.rows = 1) :
    (wmInit W = Except.error (Err.attributeError "_ParamOperation__init_"))
  ∧ (baInit B = Except.error (Err.attributeError "_ParamOperation__init_")) := by
  constructor
  · rfl
  · unfold baInit
    rw [if_pos hB]
    rfl

theorem c4_paramop_init_attribute_error_w :
    ((onesArr 1 5).rows = 1)
  ∧ ((wmInit (onesArr 2 3)
        = Except.error (Err.attributeError "_ParamOperation__init_"))
  ∧ (baInit (onesArr 1 5)
        = Except.error (Err.attributeError "_ParamOperation__init_"))) :=
  ⟨rfl, c4_paramop_init_attribute_error (onesArr 2 3) (onesArr 1 5) rfl⟩

/-- C5: the spec claims `Sigmoid.forward([[0.0]]) = [[0.5]]` followed by
`backward([[1.0]]) = [[0.25]]`.  On the code, `Sigmoid._output` reads the
never-assigned `input_` attribute, so `forward([[0.0]])` raises
`AttributeError` before `np.exp` is ever applied (the statement holds for
every interpretation `e` of `np.exp`). -/
theorem c5_sigmoid_forward_raises (e : ℚ → ℚ) :
    (opForward (sigOut e) freshOp (arrOfFn 1 1 fun _ _ => 0)).2
      = Except.error (Err.attributeError "input_") := by
  rw [opForward_hook_err (sigOut e) freshOp (arrOfFn 1 1 fun _ _ => 0) _
      (sigOut_err e { freshOp with input := some (arrOfFn 1 1 fun _ _ => 0) }
        rfl)]

theorem c5_sigmoid_forward_raises_w :
    (opForward (sigOut id) freshOp (arrOfFn 1 1 fun _ _ => 0)).2
      = Except.error (Err.attributeError "input_") :=
  c5_sigmoid_forward_raises id

/-- C6: the spec claims `Linear.forward(x)` returns `x` unchanged.  On the
code, `Linear._output` is `return self.input_` while `forward` assigned
`self.input`, so `forward([[2.0]])` raises `AttributeError` and in particular
does not return its argument. -/
theorem c6_linear_forward_not_identity :
    ((opForward linOut freshOp (arrOfFn 1 1 fun _ _ => 2)).2
        = Except.error (Err.attributeError "input_"))
  ∧ ((opForward linOut freshOp (arrOfFn 1 1 fun _ _ => 2)).2
        ≠ Except.ok (arrOfFn 1 1 fun _ _ => 2)) := by
  decide

/-- C9: the spec claims `BiasAdd` with a `[1,5]` parameter constructs
successfully while a `[2,5]` parameter fails with InvariantViolation.  On the
code the `[2,5]` half holds (the `assert B.shape[0] == 1` fires first), but
the `[1,5]` construction does not succeed: after the assert passes,
`ParamOperation.__init__`'s misspelled `super().__init_()` raises
`AttributeError`. -/
theorem c9_biasadd_init_raises :
    (baInit (onesArr 1 5)
        = Except.error (Err.attributeError "_ParamOperation__init_"))
  ∧ (baInit (onesArr 2 5) = Except.error Err.assertionFailed) := by
  decide

@[simp] theorem arrOfFn_rows (r c : Nat) (f : Nat → Nat → ℚ) :
    (arrOfFn r c f).rows = r := rfl

@[simp] theorem arrOfFn_cols (r c : Nat) (f : Nat → Nat → ℚ) :
    (arrOfFn r c f).cols = c := rfl

@[simp] theorem transposeArr_rows (A : Arr) : (transposeArr A).rows = A.cols := rfl

@[simp] theorem transposeArr_cols (A : Arr) : (transposeArr A).cols = A.rows := rfl

theorem get_arrOfFn (r c : Nat) (f : Nat → Nat → ℚ) (a b : Nat)
    (ha : a < r) (hb : b < c) : (arrOfFn r c f).get a b = f a b := by
  simp [arrOfFn, Arr.get, List.getD_eq_getElem?_getD, List.getElem?_map,
    List.getElem?_range, ha, hb]

theorem get_transposeArr (A : Arr) (a b : Nat) (ha : a < A.cols)
    (hb : b < A.rows) : (transposeArr A).get a b = A.get b a := by
  unfold transposeArr
  exact get_arrOfFn A.cols A.rows _ a b ha hb

theorem matmul_ok (A B : Arr) (h : A.cols = B.rows) :
    matmul A B = Except.ok (arrOfFn A.rows B.cols fun i j =>
      ((List.range A.cols).map fun k => A.get i k * B.get k j).sum) := by
  unfold matmul
  rw [if_pos h]

/-- C7: for `WeightMultiply` with cached input of shape `[batch, in]` and
`param` of shape `[in, out]`, and `output_grad` of shape `[batch, out]`:
`_input_grad` succeeds and returns the matrix product of `output_grad` with
the transpose of `param` (entry `(a,b)` is `Σ_k g[a,k]·p[b,k]`), of shape
`[batch, in]`; `_param_grad` succeeds and returns the matrix product of the
transpose of the cached input with `output_grad` (entry `(a,b)` is
`Σ_k i[k,a]·g[k,b]`), of shape `[in, out]`. -/
theorem c7_weightmultiply_gradients (s : OpState) (i p g : Arr)
    (hi : s.input_ = some i) (hp : s.param = some p)
    (hpr : p.rows = i.cols) (hgr : g.rows = i.rows) (hgc : g.cols = p.cols) :
    (∃ ig, wmInputGrad s g = Except.ok ig
       ∧ ig.rows = i.rows ∧ ig.cols = i.cols
       ∧ ∀ a b, a < i.rows → b < i.cols →
           ig.get a b
             = ((List.range p.cols).map fun k => g.get a k * p.get b k).sum)
  ∧ (∃ pg, wmParamGrad s g = Except.ok pg
       ∧ pg.rows = p.rows ∧ pg.cols = p.cols
       ∧ ∀ a b, a < p.rows → b < p.cols →
           pg.get a b
             = ((List.range i.rows).map fun k => i.get k a * g.get k b).sum) := by
  have hbp : ∀ b, b < i.cols → b < p.rows := fun b hb => by
    rw [hpr]; exact hb
  constructor
  · have e1 : wmInputGrad s g = matmul g (transposeArr p) := by
      unfold wmInputGrad
      rw [hp]
      rfl
    have ht : g.cols = (transposeArr p).rows := by
      rw [transposeArr_rows]; exact hgc
    refine ⟨_, by rw [e1, matmul_ok g (transposeArr p) ht], ?_, ?_, ?_⟩
    · rw [arrOfFn_rows]; exact hgr
    · rw [arrOfFn_cols, transposeArr_cols]; exact hpr
    · intro a b ha hb
      rw [get_arrOfFn _ _ _ a b (by rw [hgr]; exact ha)
        (by rw [transposeArr_cols]; exact hbp b hb)]
      rw [hgc]
      refine congrArg List.sum (List.map_congr_left ?_)
      intro k hk
      rw [get_transposeArr p k b (List.mem_range.mp hk) (hbp b hb)]
  · have e1 : wmParamGrad s g = matmul (transposeArr i) g := by
      unfold wmParamGrad
      rw [hi]
      rfl
    have ht : (transposeArr i).cols = g.rows := by
      rw [transposeArr_cols]; exact hgr.symm
    refine ⟨_, by rw [e1, matmul_ok (transposeArr i) g ht], ?_, ?_, ?_⟩
    · rw [arrOfFn_rows, transposeArr_rows, hpr]
    · rw [arrOfFn_cols]; exact hgc
    · intro a b ha hb
      have hai : a < i.cols := by rw [← hpr]; exact ha
      rw [get_arrOfFn _ _ _ a b (by rw [transposeArr_rows]; exact hai)
        (by rw [hgc]; exact hb)]
      have hrange : (transposeArr i).cols = i.rows := transposeArr_cols i
      rw [hrange]
      refine congrArg List.sum (List.map_congr_left ?_)
      intro k hk
      rw [get_transposeArr i a k hai (List.mem_range.mp hk)]

theorem c7_weightmultiply_gradients_w :
    (({ input_ := some (onesArr 2 3), param := some (onesArr 3 4) } : OpState).input_
        = some (onesArr 2 3))
  ∧ (({ input_ := some (onesArr 2 3), param := some (onesArr 3 4) } : OpState).param
        = some (onesArr 3 4))
  ∧ ((onesArr 3 4).rows = (onesArr 2 3).cols)
  ∧ ((onesArr 2 4).rows = (onesArr 2 3).rows)
  ∧ ((onesArr 2 4).cols = (onesArr 3 4).cols)
  ∧ ((∃ ig, wmInputGrad
        { input_ := some (onesArr 2 3), param := some (onesArr 3 4) }
        (onesArr 2 4) = Except.ok ig
       ∧ ig.rows = (onesArr 2 3).rows ∧ ig.cols = (onesArr 2 3).cols
       ∧ ∀ a b, a < (onesArr 2 3).rows → b < (onesArr 2 3).cols →
           ig.get a b = ((List.range (onesArr 3 4).cols).map fun k =>
             (onesArr 2 4).get a k * (onesArr 3 4).get b k).sum)
  ∧ (∃ pg, wmParamGrad
        { input_ := some (onesArr 2 3), param := some (onesArr 3 4) }
        (onesArr 2 4) = Except.ok pg
       ∧ pg.rows = (onesArr 3 4).rows ∧ pg.cols = (onesArr 3 4).cols
       ∧ ∀ a b, a < (onesArr 3 4).rows → b < (onesArr 3 4).cols →
           pg.get a b = ((List.range (onesArr 2 3).rows).map fun k =>
             (onesArr 2 3).get k a * (onesArr 2 4).get k b).sum)) :=
  ⟨rfl, rfl, rfl, rfl, rfl,
    c7_weightmultiply_gradients
      { input_ := some (onesArr 2 3), param := some (onesArr 3 4) }
      (onesArr 2 3) (onesArr 3 4) (onesArr 2 4) rfl rfl rfl rfl rfl⟩

/-- C8: for `BiasAdd` state with cached input of shape `[4,5]` and `param` of
shape `[1,5]`, `_param_grad` of the all-ones `[4,5]` output gradient returns
`[[4,4,4,4,4]]` — the gradient summed over the batch dimension — of shape
`[1,5]`. -/
theorem c8_biasadd_param_grad_sums_batch :
    baParamGrad { input_ := some (onesArr 4 5), param := some (onesArr 1 5) }
        (onesArr 4 5)
      = Except.ok (Arr.mk 1 5 [[4, 4, 4, 4, 4]]) := by
  norm_num [baParamGrad, attr, broadcast2, bDim, bIdx, onesLike, onesArr,
    sumAxis0Reshape1, arrOfFn, Arr.get, List.range_succ, Bind.bind,
    Except.bind, Functor.map, Except.map, Pure.pure, Except.pure]

/-- C10: `Operation.backward`, after computing and caching `input_grad`,
additionally fails with ShapeMismatch when `input_grad.shape` differs from the
cached input's shape even though `output_grad` matched the cached output;
`ParamOperation.backward` performs no such re-check — with the same mismatched
`input_grad` it returns it successfully — and it does check `output_grad`
against the cached output's shape, failing with ShapeMismatch on a mismatched
`output_grad`. -/
theorem c10_backward_shape_recheck_asymmetry
    (f fp : OpState → Arr → Except Err Arr) (s : OpState)
    (x y ig pg g g2 : Arr)
    (hout : s.output = some y) (hin : s.input = some x)
    (hg : y.shapeEq g = true)
    (hf : f s g = Except.ok ig)
    (hbad : x.shapeEq ig = false)
    (hfp : ∀ t : OpState, fp t g = Except.ok pg)
    (hg2 : y.shapeEq g2 = false) :
    ((opBackward f s g).2 = Except.error Err.shapeMismatch)
  ∧ ((opBackward f s g).1.inputGrad = some ig)
  ∧ ((paramBackward f fp s g).2 = Except.ok ig)
  ∧ ((paramBackward f fp s g2).2 = Except.error Err.shapeMismatch) := by
  refine ⟨?_, ?_, ?_, ?_⟩
  · simp [opBackward, hout, hg, hf, hin, hbad]
  · simp [opBackward, hout, hg, hf, hin, hbad]
  · simp [paramBackward, hout, hg, hf, hfp]
  · simp [paramBackward, hout, hg2]

theorem c10_backward_shape_recheck_asymmetry_w :
    (({ input := some (onesArr 1 1), output := some (onesArr 1 2) } : OpState).output
        = some (onesArr 1 2))
  ∧ (({ input := some (onesArr 1 1), output := some (onesArr 1 2) } : OpState).input
        = some (onesArr 1 1))
  ∧ ((onesArr 1 2).shapeEq (onesArr 1 2) = true)
  ∧ ((onesArr 1 1).shapeEq (onesArr 2 2) = false)
  ∧ ((onesArr 1 2).shapeEq (onesArr 3 3) = false)
  ∧ (((opBackward (fun _ _ => Except.ok (onesArr 2 2))
        { input := some (onesArr 1 1), output := some (onesArr 1 2) }
        (onesArr 1 2)).2 = Except.error Err.shapeMismatch)
  ∧ ((opBackward (fun _ _ => Except.ok (onesArr 2 2))
        { input := some (onesArr 1 1), output := some (onesArr 1 2) }
        (onesArr 1 2)).1.inputGrad = some (onesArr 2 2))
  ∧ ((paramBackward (fun _ _ => Except.ok (onesArr 2 2))
        (fun _ _ => Except.ok (onesArr 1 1))
        { input := some (onesArr 1 1), output := some (onesArr 1 2) }
        (onesArr 1 2)).2 = Except.ok (onesArr 2 2))
  ∧ ((paramBackward (fun _ _ => Except.ok (onesArr 2 2))
        (fun _ _ => Except.ok (onesArr 1 1))
        { input := some (onesArr 1 1), output := some (onesArr 1 2) }
        (onesArr 3 3)).2 = Except.error Err.shapeMismatch)) :=
  ⟨rfl, rfl, rfl, rfl, rfl,
    c10_backward_shape_recheck_asymmetry
      (fun _ _ => Except.ok (onesArr 2 2)) (fun _ _ => Except.ok (onesArr 1 1))
      { input := some (onesArr 1 1), output := some (onesArr 1 2) }
      (onesArr 1 1) (onesArr 1 2) (onesArr 2 2) (onesArr 1 1)
      (onesArr 1 2) (onesArr 3 3)
      rfl rfl rfl rfl rfl (fun _ => rfl) rfl⟩
